import Mathlib

/-!
Shallow embedding of the timeseries windowing subsystem of
`gordo/machine/model/models.py`: the lookahead padding (`pad_x_and_y`),
the keras `TimeseriesGenerator` interface it relies on, the generator-type
registry (`TimeseriesGeneratorTypes`), and the chunk-aware
`GordoTimeseriesGenerator` (chunk discovery, per-chunk generator
construction, global indexing).

Timestamps are modelled as integers (minutes); a pandas DataFrame is a
list of (timestamp, row) pairs; numpy arrays are lists.  Fallible code
returns `Except`.
-/

namespace Gordo

/-- A time-indexed table: each row is (timestamp, value).  Models the
pandas DataFrames handed to the generators (sorted, unique timestamps, as
the source assumes). -/
abbrev DataFrame (α : Type) := List (Int × α)

/-- The truncation step of keras `pad_sequences`: cut a sequence longer
than `maxlen` down to `maxlen` elements, keeping the head when
`truncPost` (`truncating="post"`), the tail otherwise
(`truncating="pre"`). -/
def truncate_sequence (xs : List α) (maxlen : Nat) (truncPost : Bool) : List α :=
  if maxlen < xs.length then
    (if truncPost then xs.take maxlen else xs.drop (xs.length - maxlen))
  else xs

/-- keras `pad_sequences` applied to a single sequence (the source always
calls it as `pad_sequences([X], ...)[0]`):  first truncate to `maxlen`,
then pad with `zero` up to `maxlen` (at the tail when `padPost`
(`padding="post"`), at the head otherwise (`padding="pre"`)). -/
def pad_sequences (xs : List α) (maxlen : Nat) (padPost : Bool) (truncPost : Bool)
    (zero : α) : List α :=
  let truncated := truncate_sequence xs maxlen truncPost
  if truncated.length < maxlen then
    (if padPost then truncated ++ List.replicate (maxlen - truncated.length) zero
     else List.replicate (maxlen - truncated.length) zero ++ truncated)
  else truncated

/-- `pad_x_and_y(X, y, lookahead)` from models.py: lookahead 1 returns the
pair unchanged; lookahead 0 pads `X` post and `y` pre to length `len(X)+1`;
lookahead > 1 truncates to `len(X)+1-lookahead` (X post-padded/truncated,
y pre-padded/truncated); negative lookahead raises `ValueError`. -/
def pad_x_and_y (X y : List α) (zero : α) (lookahead : Int) :
    Except String (List α × List α) :=
  let new_length := ((X.length : Int) + 1 - lookahead).toNat
  if lookahead = 1 then .ok (X, y)
  else if 0 ≤ lookahead then
    if lookahead = 0 then
      .ok (pad_sequences X new_length true false zero,
           pad_sequences y new_length false false zero)
    else
      .ok (pad_sequences X new_length true true zero,
           pad_sequences y new_length false false zero)
  else .error "Value of lookahead can not be negative"

/-- The state of a successfully constructed keras
`TimeseriesGenerator(data, targets, length, batch_size, shuffle)`
(stride and sampling_rate are left at their default 1, as in the source). -/
structure TsGen (α : Type) where
  data : List α
  targets : List α
  length : Nat
  batch_size : Nat
  shuffle : Bool
deriving Repr, DecidableEq

/-- keras `TimeseriesGenerator.__init__` validation: raises `ValueError`
when data and targets differ in length, or when
`start_index (= length) > end_index (= len(data) - 1)`, i.e. when the data
has fewer than `length + 1` rows. -/
def mkTimeseriesGenerator (data targets : List α) (length batch_size : Nat)
    (shuffle : Bool) : Except String (TsGen α) :=
  if data.length ≠ targets.length then
    .error "Data and targets have to be of same length"
  else if data.length < length + 1 then
    .error "start_index bigger than end_index"
  else .ok ⟨data, targets, length, batch_size, shuffle⟩

/-- keras `TimeseriesGenerator.__len__`: number of batches,
`(end_index - start_index + batch_size) // batch_size` with stride 1. -/
def genLen (g : TsGen α) : Nat :=
  (g.data.length - 1 - g.length + g.batch_size) / g.batch_size

/-- Total number of individual windows a keras generator yields across all
its batches: rows `length .. len(data)-1`, one window per row. -/
def numWindows (g : TsGen α) : Nat := g.data.length - g.length

/-- The j-th window (0-based; keras row `j + length`): keras
`__getitem__` builds the sample for row `r` as `data[r - length : r]`,
i.e. `data[j : j + length]`. -/
def kerasWindow (g : TsGen α) (j : Nat) : List α := (g.data.drop j).take g.length

/-- The target paired with the j-th window: keras `__getitem__` pairs row
`r` with `targets[r]`, i.e. `targets[j + length]`. -/
def kerasTarget (g : TsGen α) (j : Nat) : Option α := g.targets[j + g.length]?

/-- `DefaultTimeseriesGenertor.__init__`: run `pad_x_and_y` on the arrays,
then construct the keras `TimeseriesGenerator` on the padded pair. -/
def default_tsg (X y : List α) (zero : α) (length batch_size : Nat)
    (lookahead : Int) : Except String (TsGen α) :=
  match pad_x_and_y X y zero lookahead with
  | .error e => .error e
  | .ok (data, targets) =>
    mkTimeseriesGenerator data targets length batch_size false

/-- A python dict with string keys, modelled by its lookup function. -/
abbrev Dict (V : Type) := String → Option V

/-- `dict.pop(key)` (the resulting dict). -/
def dict_pop (d : Dict V) (key : String) : Dict V :=
  fun k => if k = key then none else d k

/-- `d.update(kw)` (the resulting dict): `kw` wins on collisions. -/
def dict_update (d kw : Dict V) : Dict V :=
  fun k => match kw k with
  | some v => some v
  | none => d k

/-- The `TimeseriesGeneratorTypes` registry state: the default constructor
and the `_types` name-to-constructor table.  Constructors are abstract
values of type `C`; config values have type `V`. -/
structure TimeseriesGeneratorTypes (C V : Type) where
  default_type : C
  types : V → Option C

/-- `TimeseriesGeneratorTypes.create_from_config`: `None` config
instantiates the default type with exactly the shared kwargs; a config
without a `type` key or with an unregistered type name raises
`ValueError`; otherwise the registered constructor is instantiated with
`copy(config)` minus the `type` key, updated by the shared kwargs.
Instantiation is modelled by returning the chosen constructor together
with the kwargs dict it is called with. -/
def create_from_config (reg : TimeseriesGeneratorTypes C V)
    (config : Option (Dict V)) (kwargs : Dict V) : Except String (C × Dict V) :=
  match config with
  | none => .ok (reg.default_type, kwargs)
  | some cfg =>
    match cfg "type" with
    | none => .error "Unspecified type attribute for timeseries_generator"
    | some type_name =>
      match reg.types type_name with
      | none => .error "Unknown type for timeseries_generator"
      | some ctor => .ok (ctor, dict_update (dict_pop cfg "type") kwargs)

/-- The `TimeseriesChunk` dataclass. -/
structure TimeseriesChunk where
  start_ts : Int
  end_ts : Int
  size : Nat
deriving Repr, DecidableEq

/-- The `TimeseriesGeneratorContainer` dataclass: a per-chunk keras
generator, its chunk, and the `length` recorded for it (`len(generator)`). -/
structure TimeseriesGeneratorContainer (α : Type) where
  generator : TsGen α
  chunk : TimeseriesChunk
  length : Nat
deriving Repr, DecidableEq

/-- Loop body of `GordoTimeseriesGenerator.find_consecutive_chunks`.
State: position `i` of the next element, the open chunk as
`some (start_ts, prev_ts)` (the source keeps the two variables in lock
step: both `None` or both set), `start_i`, and the chunks found so far.
Returns the chunk list plus the final open-chunk state and `start_i`. -/
def findChunksGo (step : Int) (index : List Int) (i : Nat)
    (state : Option (Int × Int)) (start_i : Nat)
    (chunks : List TimeseriesChunk) :
    List TimeseriesChunk × Option (Int × Int) × Nat :=
  match index with
  | [] => (chunks, state, start_i)
  | dt :: rest =>
    match state with
    | none => findChunksGo step rest (i + 1) (some (dt, dt)) start_i chunks
    | some (start_ts, prev_ts) =>
      if dt - prev_ts = step then
        findChunksGo step rest (i + 1) (some (start_ts, dt)) start_i chunks
      else
        findChunksGo step rest (i + 1) none i
          (chunks ++ [⟨start_ts, prev_ts, i - start_i⟩])

/-- `GordoTimeseriesGenerator.find_consecutive_chunks`: scan the index
once; after the loop, close the still-open chunk (if any) with size
`len(df.index) - start_i`. -/
def find_consecutive_chunks (step : Int) (index : List Int) :
    List TimeseriesChunk :=
  match findChunksGo step index 0 none 0 [] with
  | (chunks, some (start_ts, prev_ts), start_i) =>
      chunks ++ [⟨start_ts, prev_ts, index.length - start_i⟩]
  | (chunks, none, _) => chunks

/-- pandas label slicing `df[start_ts:end_ts]` on a sorted unique index:
the rows whose timestamp lies in the closed interval. -/
def sliceByTs (df : DataFrame α) (s e : Int) : DataFrame α :=
  df.filter (fun r => decide (s ≤ r.1) && decide (r.1 ≤ e))

/-- `GordoTimeseriesGenerator.create_generator_containers`, returning the
container list and the failed-chunk list.  Each chunk is sliced out of
data/targets by its start/end timestamps and handed to the keras
generator; a `ValueError` there records the chunk as failed.  On success
the source executes `length = len(generator)` before building the
container, REBINDING the `length` parameter: every later chunk is
windowed with the previous successful generator's batch count instead of
the requested window length.  The recursion passes `genLen generator` on
to mirror that rebinding. -/
def create_generator_containers (data targets : DataFrame α)
    (chunks : List TimeseriesChunk) (length batch_size : Nat)
    (shuffle : Bool) :
    List (TimeseriesGeneratorContainer α) × List TimeseriesChunk :=
  match chunks with
  | [] => ([], [])
  | chunk :: rest =>
    let gen_data := (sliceByTs data chunk.start_ts chunk.end_ts).map (·.2)
    let gen_target := (sliceByTs targets chunk.start_ts chunk.end_ts).map (·.2)
    match mkTimeseriesGenerator gen_data gen_target length batch_size shuffle with
    | .error _ =>
      let (cs, fs) := create_generator_containers data targets rest length
        batch_size shuffle
      (cs, chunk :: fs)
    | .ok generator =>
      let l := genLen generator
      let (cs, fs) := create_generator_containers data targets rest l
        batch_size shuffle
      (⟨generator, chunk, l⟩ :: cs, fs)

/-- Errors `GordoTimeseriesGenerator.__init__` can raise (both are
`ValueError` in the source; the insufficient-data one interpolates
`self.consecutive_chunks` into its message, modelled by carrying that
list). The is-a-DataFrame checks are enforced by typing here. -/
inductive GordoInitError
  | lengthMismatch (dataLen targetsLen : Nat)
  | insufficientData (chunks : List TimeseriesChunk)
deriving Repr, DecidableEq

/-- State of a constructed `GordoTimeseriesGenerator`. -/
structure GordoTimeseriesGenerator (α : Type) where
  step : Int
  consecutive_chunks : List TimeseriesChunk
  failed_chunks : List TimeseriesChunk
  generators_containers : List (TimeseriesGeneratorContainer α)
  lookahead : Int
deriving Repr, DecidableEq

/-- `GordoTimeseriesGenerator.__init__`: check data/targets have equal
length, find the consecutive chunks of the data index, build the per-chunk
generators, fail with the insufficient-data error when none could be
built, and store `lookahead` unused (`# TODO use lookahead` in the
source — in particular it is not validated). -/
def gordo_init (data targets : DataFrame α) (length : Nat)
    (batch_size : Nat) (shuffle : Bool) (step : Int) (lookahead : Int) :
    Except GordoInitError (GordoTimeseriesGenerator α) :=
  if data.length ≠ targets.length then
    .error (.lengthMismatch data.length targets.length)
  else
    let chunks := find_consecutive_chunks step (data.map (·.1))
    let (containers, failed) :=
      create_generator_containers data targets chunks length batch_size shuffle
    if containers.isEmpty then .error (.insufficientData chunks)
    else .ok ⟨step, chunks, failed, containers, lookahead⟩

/-- `GordoTimeseriesGenerator.__len__`: the sum of the containers'
recorded lengths. -/
def gordoLen (cs : List (TimeseriesGeneratorContainer α)) : Nat :=
  (cs.map (fun c => c.length)).sum

/-- Loop of `GordoTimeseriesGenerator.__getitem__`: `i` starts at -1;
for each container, `new_i = i + container.length`; when
`index <= new_i` the batch `container.generator[index - i - 1]` is
returned (modelled as the pair (container position, local generator
index)); falling off the end raises `IndexError` (modelled as `none`).
`k` counts the containers already passed. -/
def getItemGo (cs : List (TimeseriesGeneratorContainer α)) (index : Int)
    (k : Nat) (i : Int) : Option (Nat × Int) :=
  match cs with
  | [] => none
  | c :: rest =>
    if index ≤ i + (c.length : Int) then some (k, index - i - 1)
    else getItemGo rest index (k + 1) (i + (c.length : Int))

/-- `GordoTimeseriesGenerator.__getitem__(index)` over the container
list. -/
def gordo_getitem (cs : List (TimeseriesGeneratorContainer α))
    (index : Int) : Option (Nat × Int) :=
  getItemGo cs index 0 (-1)

/-- Sum of the recorded lengths of the first `k` containers (the
cumulative count before container `k`). -/
def cumBefore (cs : List (TimeseriesGeneratorContainer α)) (k : Nat) : Nat :=
  ((cs.take k).map (fun c => c.length)).sum

/-- `Except.isOk` as a Bool, for stating that a construction succeeded. -/
def exceptIsOk : Except ε α → Bool
  | .ok _ => true
  | .error _ => false

/-- `KerasLSTMBaseEstimator._validate_and_fix_size_of_X` applied to a
table with `n_rows` rows (the ndim-1 reshape does not change the row
count): raises `ValueError` when `lookback_window >= X.shape[0]`. -/
def validate_and_fix_size_of_X (lookback_window n_rows : Nat) :
    Except String Unit :=
  if n_rows ≤ lookback_window then
    .error "For KerasLSTMForecast lookback_window must be smaller than size of X"
  else .ok ()

/-- The argument `X` of `KerasLSTMBaseEstimator.fit`: either a pandas
DataFrame or a numpy array. -/
inductive FitInput (α : Type)
  | dataFrame (df : DataFrame α)
  | ndarray (rows : List α)
deriving Repr, DecidableEq

/-- The validation step at the top of `KerasLSTMBaseEstimator.fit` (and
`predict`): arrays go through `_validate_and_fix_size_of_X`, DataFrames
hit the `pass  # TODO` branch and are not validated at all; windowing is
attempted next in either case that returns `.ok`. -/
def fit_validation (lookback_window : Nat) (X : FitInput α) :
    Except String Unit :=
  match X with
  | .ndarray rows => validate_and_fix_size_of_X lookback_window rows.length
  | .dataFrame _ => .ok ()

/-- A 7-row table whose timestamps form two runs at step 10 separated by a
gap: 0,10,20,30 then 100,110,120. -/
def data7 : DataFrame Int := [(0,1),(10,2),(20,3),(30,4),(100,5),(110,6),(120,7)]

/-- A 4-row table with one consecutive run at step 10. -/
def data4 : DataFrame Int := [(0,1),(10,2),(20,3),(30,4)]

/-- A 4-row table whose index differs from `data4` (timestamp 5 instead of
20) while having the same length. -/
def targetsShifted : DataFrame Int := [(0,9),(5,8),(10,7),(30,6)]

/-- A concrete container list (recorded lengths 2 and 3) for exercising
the global indexer. -/
def csW : List (TimeseriesGeneratorContainer Int) :=
  [⟨⟨[1,2,3],[1,2,3],1,1,false⟩, ⟨0,20,3⟩, 2⟩,
   ⟨⟨[4,5,6,7],[4,5,6,7],1,1,false⟩, ⟨40,70,4⟩, 3⟩]

/-- A concrete registry: default type tagged `DefaultTimeseriesGenertor`,
with `GordoTimeseriesGenerator` registered. -/
def regW : TimeseriesGeneratorTypes String String :=
  ⟨"DefaultTimeseriesGenertor",
   fun v => if v = "GordoTimeseriesGenerator"
     then some "GordoTimeseriesGenerator" else none⟩

/-- A config selecting the registered type, with one extra option. -/
def cfgW : Dict String :=
  fun k => if k = "type" then some "GordoTimeseriesGenerator"
    else if k = "step" then some "5min" else none

/-- A config with no `type` key. -/
def cfgNoType : Dict String :=
  fun k => if k = "step" then some "5min" else none

/-- A config naming an unregistered type. -/
def cfgUnknown : Dict String :=
  fun k => if k = "type" then some "NoSuchGenerator" else none

/-- Shared kwargs colliding with `cfgW` on the `step` key. -/
def kwW : Dict String :=
  fun k => if k = "batch_size" then some "128"
    else if k = "step" then some "10min" else none

end Gordo

namespace Gordo

/-- Truncation is the identity on sequences no longer than `maxlen`. -/
theorem truncate_sequence_of_le (xs : List α) (m : Nat) (tp : Bool)
    (h : xs.length ≤ m) : truncate_sequence xs m tp = xs := by
  unfold truncate_sequence
  exact if_neg (by omega)

/-- `truncating="post"` keeps the first `maxlen` elements. -/
theorem truncate_sequence_post (xs : List α) (m : Nat) (h : m < xs.length) :
    truncate_sequence xs m true = xs.take m := by
  unfold truncate_sequence
  rw [if_pos h, if_pos rfl]

/-- `truncating="pre"` keeps the last `maxlen` elements. -/
theorem truncate_sequence_pre (xs : List α) (m : Nat) (h : m < xs.length) :
    truncate_sequence xs m false = xs.drop (xs.length - m) := by
  unfold truncate_sequence
  rw [if_pos h, if_neg (by simp)]

/-- `padding="post"` on a short sequence appends zeros. -/
theorem pad_sequences_pad_post (xs : List α) (m : Nat) (tp : Bool) (zero : α)
    (h : xs.length < m) :
    pad_sequences xs m true tp zero =
      xs ++ List.replicate (m - xs.length) zero := by
  unfold pad_sequences
  rw [truncate_sequence_of_le _ _ _ (by omega), if_pos h, if_pos rfl]

/-- `padding="pre"` on a short sequence prepends zeros. -/
theorem pad_sequences_pad_pre (xs : List α) (m : Nat) (tp : Bool) (zero : α)
    (h : xs.length < m) :
    pad_sequences xs m false tp zero =
      List.replicate (m - xs.length) zero ++ xs := by
  unfold pad_sequences
  rw [truncate_sequence_of_le _ _ _ (by omega), if_pos h, if_neg (by simp)]

/-- On a sequence at least `maxlen` long, `truncating="post"` reduces
`pad_sequences` to a prefix. -/
theorem pad_sequences_trunc_post (xs : List α) (m : Nat) (pp : Bool) (zero : α)
    (h : m ≤ xs.length) :
    pad_sequences xs m pp true zero = xs.take m := by
  unfold pad_sequences
  by_cases h1 : m < xs.length
  · rw [truncate_sequence_post _ _ h1]
    rw [if_neg (by simp [List.length_take]; omega)]
  · rw [truncate_sequence_of_le _ _ _ (by omega)]
    rw [if_neg (by omega)]
    have he : m = xs.length := by omega
    rw [he, List.take_length]

/-- On a sequence at least `maxlen` long, `truncating="pre"` reduces
`pad_sequences` to a suffix. -/
theorem pad_sequences_trunc_pre (xs : List α) (m : Nat) (pp : Bool) (zero : α)
    (h : m ≤ xs.length) :
    pad_sequences xs m pp false zero = xs.drop (xs.length - m) := by
  unfold pad_sequences
  by_cases h1 : m < xs.length
  · rw [truncate_sequence_pre _ _ h1]
    rw [if_neg (by simp [List.length_drop]; omega)]
  · rw [truncate_sequence_of_le _ _ _ (by omega)]
    rw [if_neg (by omega)]
    have he : xs.length - m = 0 := by omega
    rw [he, List.drop_zero]

/-- `pad_x_and_y` with lookahead 1 is the identity on the pair. -/
theorem pad_x_and_y_one (X y : List α) (zero : α) :
    pad_x_and_y X y zero 1 = .ok (X, y) := rfl

/-- `pad_x_and_y` with lookahead 0 appends one zero row to `X` and
prepends one zero row to `y`. -/
theorem pad_x_and_y_zero (X y : List α) (zero : α) (hlen : y.length = X.length) :
    pad_x_and_y X y zero 0 = .ok (X ++ [zero], zero :: y) := by
  have hm : (((X.length : Int)) + 1 - 0).toNat = X.length + 1 := by omega
  simp only [pad_x_and_y, hm]
  rw [if_neg (by omega), if_pos (by omega), if_pos trivial]
  rw [pad_sequences_pad_post _ _ _ _ (by omega)]
  rw [pad_sequences_pad_pre _ _ _ _ (by omega)]
  rw [hlen]
  simp

/-- `pad_x_and_y` with lookahead `k ≥ 2` keeps the first
`len(X) + 1 - k` rows of `X` and the last `len(X) + 1 - k` rows of `y`. -/
theorem pad_x_and_y_ge_two (X y : List α) (zero : α) (k : Nat) (hk : 2 ≤ k)
    (hlen : y.length = X.length) :
    pad_x_and_y X y zero (k : Int) =
      .ok (X.take (X.length + 1 - k),
           y.drop (y.length - (X.length + 1 - k))) := by
  have hm : (((X.length : Int)) + 1 - (k : Int)).toNat = X.length + 1 - k := by
    omega
  simp only [pad_x_and_y, hm]
  rw [if_neg (by omega), if_pos (by omega), if_neg (by omega)]
  rw [pad_sequences_trunc_post _ _ _ _ (by omega)]
  rw [pad_sequences_trunc_pre _ _ _ _ (by omega)]

/-- Inversion of keras `TimeseriesGenerator` construction: success pins
the fields and yields the two validated facts. -/
theorem mkTimeseriesGenerator_ok (data targets : List α) (L bs : Nat)
    (sh : Bool) (g : TsGen α)
    (h : mkTimeseriesGenerator data targets L bs sh = .ok g) :
    g = ⟨data, targets, L, bs, sh⟩ ∧ data.length = targets.length ∧
      L + 1 ≤ data.length := by
  unfold mkTimeseriesGenerator at h
  by_cases h1 : data.length ≠ targets.length
  · rw [if_pos h1] at h
    exact absurd h (by simp)
  · rw [if_neg h1] at h
    push_neg at h1
    by_cases h2 : data.length < L + 1
    · rw [if_pos h2] at h
      exact absurd h (by simp)
    · rw [if_neg h2] at h
      simp only [Except.ok.injEq] at h
      exact ⟨h.symm, h1, by omega⟩

/-- The last element of the window starting at `j` is the underlying
array's element at position `j + L - 1`. -/
theorem window_getLast (l : List α) (j L : Nat) (hL : 1 ≤ L)
    (h : j + L ≤ l.length) :
    ((l.drop j).take L).getLast? = l[j + L - 1]? := by
  have hlen : ((l.drop j).take L).length = L := by
    simp only [List.length_take, List.length_drop]
    omega
  rw [List.getLast?_eq_getElem?, hlen]
  rw [List.getElem?_take_of_lt (by omega : L - 1 < L)]
  rw [List.getElem?_drop]
  congr 1
  omega

/-- The `__getitem__` loop is invariant under shifting the index and the
accumulator by the same amount. -/
theorem getItemGo_shift (cs : List (TimeseriesGeneratorContainer α))
    (index : Int) (d : Int) : ∀ (k : Nat) (i : Int),
    getItemGo cs (index + d) k (i + d) = getItemGo cs index k i := by
  induction cs with
  | nil => intro k i; rfl
  | cons c rest ih =>
    intro k i
    simp only [getItemGo]
    by_cases h : index ≤ i + (c.length : Int)
    · rw [if_pos (by omega), if_pos h]
      have he : index + d - (i + d) - 1 = index - i - 1 := by ring
      rw [he]
    · rw [if_neg (by omega), if_neg h]
      have he : i + d + (c.length : Int) = (i + (c.length : Int)) + d := by ring
      rw [he, ih]

/-- The container counter `k` only shifts the first component of the
result of the `__getitem__` loop. -/
theorem getItemGo_k (cs : List (TimeseriesGeneratorContainer α))
    (index : Int) : ∀ (k : Nat) (i : Int),
    getItemGo cs index k i =
      (getItemGo cs index 0 i).map (fun p => (p.1 + k, p.2)) := by
  induction cs with
  | nil => intro k i; rfl
  | cons c rest ih =>
    intro k i
    simp only [getItemGo]
    by_cases h : index ≤ i + (c.length : Int)
    · rw [if_pos h, if_pos h]; simp
    · rw [if_neg h, if_neg h]
      rw [ih (k + 1), ih (0 + 1)]
      cases getItemGo rest index 0 (i + (c.length : Int)) with
      | none => rfl
      | some p =>
        simp only [Option.map_some', Option.some.injEq, Prod.mk.injEq]
        exact ⟨by omega, trivial⟩

/-- Structural unfolding of `__getitem__`: the first container takes the
indices up to its recorded length; the rest are handled recursively at
the index shifted down by that length. -/
theorem gordo_getitem_cons (c : TimeseriesGeneratorContainer α)
    (rest : List (TimeseriesGeneratorContainer α)) (index : Int) :
    gordo_getitem (c :: rest) index =
      if index ≤ (c.length : Int) - 1 then some (0, index)
      else (gordo_getitem rest (index - c.length)).map
        (fun p => (p.1 + 1, p.2)) := by
  unfold gordo_getitem
  simp only [getItemGo]
  by_cases h : index ≤ -1 + (c.length : Int)
  · rw [if_pos h, if_pos (by omega)]
    have he : index - (-1) - 1 = index := by ring
    rw [he]
  · rw [if_neg h, if_neg (by omega)]
    rw [getItemGo_k rest index 1 (-1 + (c.length : Int))]
    have hs := getItemGo_shift rest (index - (c.length : Int)) (c.length : Int)
      0 (-1)
    have h1 : index - (c.length : Int) + (c.length : Int) = index := by ring
    rw [h1] at hs
    rw [hs]

/-- `__len__` on a cons cell. -/
theorem gordoLen_cons (c : TimeseriesGeneratorContainer α) (rest) :
    gordoLen (c :: rest) = c.length + gordoLen rest := by
  simp [gordoLen]

/-- No containers precede container 0. -/
theorem cumBefore_zero (cs : List (TimeseriesGeneratorContainer α)) :
    cumBefore cs 0 = 0 := rfl

/-- Cumulative count on a cons cell. -/
theorem cumBefore_cons (c : TimeseriesGeneratorContainer α) (rest) (k : Nat) :
    cumBefore (c :: rest) (k + 1) = c.length + cumBefore rest k := by
  simp [cumBefore]

/-- Every in-range global index is resolved to the unique container whose
cumulative range contains it, at the local index obtained by subtracting
the cumulative count of the preceding containers. -/
theorem gordo_getitem_in_range (cs : List (TimeseriesGeneratorContainer α)) :
    ∀ (n : Nat), n < gordoLen cs →
    ∃ k, k < cs.length ∧
      gordo_getitem cs (n : Int) =
        some (k, (n : Int) - (cumBefore cs k : Int)) ∧
      cumBefore cs k ≤ n ∧ n < cumBefore cs (k + 1) := by
  induction cs with
  | nil => intro n hn; simp [gordoLen] at hn
  | cons c rest ih =>
    intro n hn
    rw [gordo_getitem_cons]
    by_cases h : n < c.length
    · refine ⟨0, by simp, ?_, by simp [cumBefore_zero], ?_⟩
      · rw [if_pos (by omega)]
        rw [cumBefore_zero]
        simp
      · rw [cumBefore_cons, cumBefore_zero]; omega
    · push_neg at h
      rw [gordoLen_cons] at hn
      obtain ⟨k, hk, hget, hlb, hub⟩ := ih (n - c.length) (by omega)
      refine ⟨k + 1, by simpa using hk, ?_, ?_, ?_⟩
      · rw [if_neg (by omega)]
        have hcast : (n : Int) - (c.length : Int) = ((n - c.length : Nat) : Int) := by
          omega
        rw [hcast, hget]
        simp only [Option.map_some', Option.some.injEq, Prod.mk.injEq]
        rw [cumBefore_cons]
        constructor
        · trivial
        · push_cast
          omega
      · rw [cumBefore_cons]; omega
      · rw [cumBefore_cons]; omega

/-- Every index at or past the total length falls off the `__getitem__`
loop and raises `IndexError`. -/
theorem gordo_getitem_out_of_range (cs : List (TimeseriesGeneratorContainer α)) :
    ∀ (m : Int), (gordoLen cs : Int) ≤ m → gordo_getitem cs m = none := by
  induction cs with
  | nil => intro m hm; rfl
  | cons c rest ih =>
    intro m hm
    rw [gordoLen_cons] at hm
    rw [gordo_getitem_cons, if_neg (by omega), ih _ (by omega)]
    rfl

/-- Claim C1 (refuted, code bug): `create_generator_containers` is
supposed to build every per-chunk keras generator with the same requested
window length, but the source rebinds `length` to `len(generator)` after
each success.  Evaluation at the failing input: with requested window
length 2 on `data7` (two chunks), the first generator is built with
window length 2 but the second with window length 1 (= the batch count of
the first generator). -/
theorem create_generator_containers_window_length_drift :
    (gordo_init data7 data7 2 128 false 10 1).toOption.map
        (fun g => g.generators_containers.map (fun c => c.generator.length))
      = some [2, 1] := by decide

/-- Claim C2 (refuted, code bug): `find_consecutive_chunks` is supposed to
partition the rows.  Evaluation at the failing input
index = [0,10,20,30,100,110,120], step 10: the second returned chunk is
(110, 120) with recorded size 3, yet only 2 rows lie between its start and
end timestamps, and the row at timestamp 100 (the first row after the gap)
lies in no returned chunk at all. -/
theorem find_consecutive_chunks_drops_gap_row :
    find_consecutive_chunks 10 [0,10,20,30,100,110,120] =
      [⟨0,30,4⟩, ⟨110,120,3⟩] ∧
    (([0,10,20,30,100,110,120] : List Int).filter
        (fun t => decide (110 ≤ t) && decide (t ≤ 120))).length = 2 ∧
    ((find_consecutive_chunks 10 [0,10,20,30,100,110,120]).all
        (fun c => !(decide (c.start_ts ≤ 100) && decide (100 ≤ c.end_ts))))
      = true := by decide

/-- Claim C5 (counterexample): `data4` and `targetsShifted` have equal
length but non-identical time indexes, yet `GordoTimeseriesGenerator`
construction succeeds — the constructor never compares the two indexes. -/
theorem gordo_init_accepts_unequal_index :
    data4.length = targetsShifted.length ∧
    data4.map (fun r => r.1) ≠ targetsShifted.map (fun r => r.1) ∧
    exceptIsOk (gordo_init data4 targetsShifted 2 128 false 10 1) = true := by
  decide

/-- Claim C5 (amended): constructing a `GordoTimeseriesGenerator` with
data and targets of different lengths always fails at construction time
with the length-mismatch validation error. -/
theorem gordo_init_rejects_length_mismatch (data targets : DataFrame α)
    (length batch_size : Nat) (shuffle : Bool) (step lookahead : Int)
    (h : data.length ≠ targets.length) :
    gordo_init data targets length batch_size shuffle step lookahead =
      .error (.lengthMismatch data.length targets.length) := by
  unfold gordo_init
  rw [if_pos h]

/-- Claim C5 (witness for the amended theorem): a 1-row data table against
a 0-row target table is rejected with the length-mismatch error. -/
theorem gordo_init_rejects_length_mismatch_witness :
    gordo_init [(0,(1:Int))] ([] : DataFrame Int) 2 128 false 10 1 =
      .error (.lengthMismatch 1 0) :=
  gordo_init_rejects_length_mismatch _ _ 2 128 false 10 1 (by decide)

/-- Claim C6 (refuted, code bug): a chunk whose sliced rows are too few
for one window of the requested length is supposed to land in
`failed_chunks`.  Evaluation at the failing input: on `data7` with
requested window length 2, the second chunk slices to only 2 rows (too
few for a window of length 2 plus its target), yet — because the window
length drifted to 1 — it is windowed anyway: `failed_chunks` stays empty
and the chunk contributes to the global length of 2. -/
theorem short_chunk_bypasses_failed_chunks :
    (sliceByTs data7 110 120).length = 2 ∧
    (gordo_init data7 data7 2 128 false 10 1).toOption.map
        (fun g => (g.failed_chunks, gordoLen g.generators_containers))
      = some ([], 2) := by decide

/-- Claim C7 (refuted, code bug): `fit` validates
`lookback_window < len(X)` only for arrays; a DataFrame input falls into
the `pass  # TODO` branch, so a 2-row DataFrame with lookback_window 2
passes validation (and windowing is attempted next), while the same-sized
array is rejected. -/
theorem fit_validation_skips_dataframe :
    fit_validation 2 (FitInput.dataFrame [(0,(1:Int)),(10,2)]) = .ok () ∧
    fit_validation 2 (FitInput.ndarray ([1,2] : List Int)) =
      .error "For KerasLSTMForecast lookback_window must be smaller than size of X" :=
  ⟨rfl, rfl⟩

/-- Claim C8 (refuted, code bug): negative lookahead is rejected by
`pad_x_and_y` (hence by the default generator type), but the registered
`GordoTimeseriesGenerator` stores lookahead without any validation
(`# TODO use lookahead`): constructing it with lookahead = -1 succeeds. -/
theorem gordo_init_accepts_negative_lookahead :
    exceptIsOk (gordo_init data4 data4 2 128 false 10 (-1)) = true ∧
    (gordo_init data4 data4 2 128 false 10 (-1)).toOption.map
        (fun g => g.lookahead) = some (-1) ∧
    pad_x_and_y ([1,2,3] : List Int) [1,2,3] 0 (-1) =
      .error "Value of lookahead can not be negative" :=
  ⟨rfl, rfl, rfl⟩

/-- Claim C3 (confirmed): `__len__` is the sum of the containers'
recorded window counts; every global index `n` in `[0, len)` is resolved
by `__getitem__` to exactly one container — the one whose cumulative
window range contains `n` — at local index `n` minus the cumulative count
of the preceding containers; and every index at or past `len` (in
particular `len` itself) raises `IndexError`. -/
theorem gordo_global_indexing (cs : List (TimeseriesGeneratorContainer α)) :
    gordoLen cs = (cs.map (fun c => c.length)).sum ∧
    (∀ n : Nat, n < gordoLen cs →
      ∃ k, k < cs.length ∧
        gordo_getitem cs (n : Int) =
          some (k, (n : Int) - (cumBefore cs k : Int)) ∧
        cumBefore cs k ≤ n ∧ n < cumBefore cs (k + 1)) ∧
    (∀ m : Int, (gordoLen cs : Int) ≤ m → gordo_getitem cs m = none) :=
  ⟨rfl, gordo_getitem_in_range cs, gordo_getitem_out_of_range cs⟩

/-- Claim C3 (witness): on the two-container list `csW` (recorded lengths
2 and 3), global index 3 resolves inside the second container and index
5 = len raises `IndexError`. -/
theorem gordo_global_indexing_witness :
    (∃ k, k < csW.length ∧
      gordo_getitem csW ((3 : Nat) : Int) =
        some (k, ((3 : Nat) : Int) - (cumBefore csW k : Int)) ∧
      cumBefore csW k ≤ 3 ∧ 3 < cumBefore csW (k + 1)) ∧
    gordo_getitem csW 5 = none :=
  ⟨(gordo_global_indexing csW).2.1 3 (by decide),
   (gordo_global_indexing csW).2.2 5 (by decide)⟩

/-- Claim C4 (confirmed): windowing through the default (unchunked)
generator with lookback L, (a) lookahead 1 passes (X, y) to windowing
unchanged, (b) with lookahead 0 EVERY window of every successfully
constructed generator has its paired target row at the same original row
position `j + L - 1` as the window's last input row, and (c) with
lookahead `k > 1` EVERY window of every successfully constructed
generator has its paired target row exactly `k` positions after the
window's last input row.  Each case is quantified and hypothesised on
its own, so case (b) covers all windows of the lookahead-0 generator —
also the trailing ones, and also inputs too short for any lookahead-k
generator to exist. -/
theorem default_lookahead_alignment (X y : List α) (zero : α)
    (L bs : Nat) (hlen : y.length = X.length) (hL : 1 ≤ L) :
    pad_x_and_y X y zero 1 = .ok (X, y) ∧
    (∀ (g0 : TsGen α) (j : Nat), default_tsg X y zero L bs 0 = .ok g0 →
      j < numWindows g0 →
      (kerasWindow g0 j).getLast? = X[j + L - 1]? ∧
      kerasTarget g0 j = y[j + L - 1]? ∧ (kerasTarget g0 j).isSome = true) ∧
    (∀ (gk : TsGen α) (j k : Nat), 2 ≤ k →
      default_tsg X y zero L bs (k : Int) = .ok gk →
      j < numWindows gk →
      (kerasWindow gk j).getLast? = X[j + L - 1]? ∧
      kerasTarget gk j = y[j + L - 1 + k]? ∧
      (kerasTarget gk j).isSome = true) := by
  refine ⟨pad_x_and_y_one X y zero, ?_, ?_⟩
  · intro g0 j h0 hj0
    unfold default_tsg at h0
    rw [pad_x_and_y_zero X y zero hlen] at h0
    obtain ⟨hg, hlen2, hLle⟩ := mkTimeseriesGenerator_ok _ _ _ _ _ _ h0
    subst hg
    simp only [numWindows, List.length_append, List.length_singleton]
      at hj0 hLle
    have hjL : j + L ≤ X.length := by omega
    have hn1 : 1 ≤ X.length := by omega
    constructor
    · show (((X ++ [zero]).drop j).take L).getLast? = X[j + L - 1]?
      rw [window_getLast _ _ _ hL (by simp; omega)]
      exact List.getElem?_append_left (by omega)
    constructor
    · show (zero :: y)[j + L]? = y[j + L - 1]?
      have he : j + L = (j + L - 1) + 1 := by omega
      conv_lhs => rw [he]
      rw [List.getElem?_cons_succ]
    · show ((zero :: y)[j + L]?).isSome = true
      have he : j + L = (j + L - 1) + 1 := by omega
      rw [he, List.getElem?_cons_succ]
      rw [List.getElem?_eq_getElem (by omega : j + L - 1 < y.length)]
      rfl
  · intro gk j k hk2 hgk hjk
    unfold default_tsg at hgk
    rw [pad_x_and_y_ge_two X y zero k hk2 hlen] at hgk
    obtain ⟨hg, hlen2, hLle⟩ := mkTimeseriesGenerator_ok _ _ _ _ _ _ hgk
    subst hg
    have hmle : X.length + 1 - k ≤ X.length := by omega
    have htl : (X.take (X.length + 1 - k)).length = X.length + 1 - k := by
      rw [List.length_take, Nat.min_eq_left hmle]
    simp only [numWindows, htl] at hjk hLle
    have hjL : j + L ≤ X.length + 1 - k := by omega
    have hkn : k ≤ X.length := by omega
    constructor
    · show (((X.take (X.length + 1 - k)).drop j).take L).getLast? =
        X[j + L - 1]?
      rw [window_getLast _ _ _ hL (by rw [htl]; omega)]
      rw [List.getElem?_take_of_lt (by omega)]
    constructor
    · show (y.drop (y.length - (X.length + 1 - k)))[j + L]? =
        y[j + L - 1 + k]?
      rw [List.getElem?_drop]
      congr 1
      omega
    · show ((y.drop (y.length - (X.length + 1 - k)))[j + L]?).isSome = true
      rw [List.getElem?_drop]
      rw [List.getElem?_eq_getElem (by omega)]
      rfl

/-- Claim C4 (witness): with L = 2 on X = [10,20,30,40], y = [5,6,7,8]:
lookahead 1 passes the pair unchanged; with lookahead 0 the FIRST window
[10,20] pairs with target 6 = y[1] (its last input row is 20 = X[1]) and
the LAST window [30,40] pairs with target 8 = y[3] (its last input row
is 40 = X[3]); with lookahead 2 the window [10,20] pairs with target
8 = y[3], two rows past X[1].  On the short input X = [10,20] (too short
for any lookahead-2 generator), the single lookahead-0 window [10,20]
still pairs with target 8 = that input's y[1]. -/
theorem default_lookahead_alignment_witness :
    pad_x_and_y ([10,20,30,40] : List Int) [5,6,7,8] 0 1 =
      .ok ([10,20,30,40], [5,6,7,8]) ∧
    ((kerasWindow (⟨[10,20,30,40,0],[0,5,6,7,8],2,3,false⟩ : TsGen Int)
        0).getLast? = some 20 ∧
      kerasTarget (⟨[10,20,30,40,0],[0,5,6,7,8],2,3,false⟩ : TsGen Int) 0 =
        some 6 ∧
      (kerasTarget (⟨[10,20,30,40,0],[0,5,6,7,8],2,3,false⟩ : TsGen Int)
        0).isSome = true) ∧
    ((kerasWindow (⟨[10,20,30,40,0],[0,5,6,7,8],2,3,false⟩ : TsGen Int)
        2).getLast? = some 40 ∧
      kerasTarget (⟨[10,20,30,40,0],[0,5,6,7,8],2,3,false⟩ : TsGen Int) 2 =
        some 8 ∧
      (kerasTarget (⟨[10,20,30,40,0],[0,5,6,7,8],2,3,false⟩ : TsGen Int)
        2).isSome = true) ∧
    ((kerasWindow (⟨[10,20,30],[6,7,8],2,3,false⟩ : TsGen Int) 0).getLast? =
        some 20 ∧
      kerasTarget (⟨[10,20,30],[6,7,8],2,3,false⟩ : TsGen Int) 0 = some 8 ∧
      (kerasTarget (⟨[10,20,30],[6,7,8],2,3,false⟩ : TsGen Int) 0).isSome =
        true) ∧
    ((kerasWindow (⟨[10,20,0],[0,7,8],2,3,false⟩ : TsGen Int) 0).getLast? =
        some 20 ∧
      kerasTarget (⟨[10,20,0],[0,7,8],2,3,false⟩ : TsGen Int) 0 = some 8 ∧
      (kerasTarget (⟨[10,20,0],[0,7,8],2,3,false⟩ : TsGen Int) 0).isSome =
        true) :=
  let h := default_lookahead_alignment ([10,20,30,40] : List Int) [5,6,7,8]
    0 2 3 rfl (by decide)
  let hshort := default_lookahead_alignment ([10,20] : List Int) [7,8]
    0 2 3 rfl (by decide)
  ⟨h.1,
   h.2.1 ⟨[10,20,30,40,0],[0,5,6,7,8],2,3,false⟩ 0 rfl (by decide),
   h.2.1 ⟨[10,20,30,40,0],[0,5,6,7,8],2,3,false⟩ 2 rfl (by decide),
   h.2.2 ⟨[10,20,30],[6,7,8],2,3,false⟩ 0 2 (by decide) rfl (by decide),
   hshort.2.1 ⟨[10,20,0],[0,7,8],2,3,false⟩ 0 rfl (by decide)⟩

/-- Claim C9 (confirmed): `create_from_config` with no config
instantiates the default type with exactly the shared kwargs; a config
without a `type` key, or naming an unregistered type, raises the
corresponding error; otherwise the registered constructor is
instantiated with the non-`type` config entries merged with the shared
kwargs, the shared kwargs winning every key collision. -/
theorem create_from_config_spec (reg : TimeseriesGeneratorTypes C V)
    (cfg kwargs : Dict V) (t : V) (ctor : C) :
    create_from_config reg none kwargs = .ok (reg.default_type, kwargs) ∧
    (cfg "type" = none →
      create_from_config reg (some cfg) kwargs =
        .error "Unspecified type attribute for timeseries_generator") ∧
    (cfg "type" = some t → reg.types t = none →
      create_from_config reg (some cfg) kwargs =
        .error "Unknown type for timeseries_generator") ∧
    (cfg "type" = some t → reg.types t = some ctor →
      create_from_config reg (some cfg) kwargs =
        .ok (ctor, dict_update (dict_pop cfg "type") kwargs) ∧
      ∀ key : String,
        dict_update (dict_pop cfg "type") kwargs key =
          (match kwargs key with
           | some v => some v
           | none => if key = "type" then none else cfg key)) := by
  refine ⟨rfl, ?_, ?_, ?_⟩
  · intro h
    simp [create_from_config, h]
  · intro h1 h2
    simp [create_from_config, h1, h2]
  · intro h1 h2
    constructor
    · simp [create_from_config, h1, h2]
    · intro key
      simp only [dict_update, dict_pop]

/-- Claim C9 (witness): on the concrete registry, a missing `type` key
and an unregistered name error out; the registered name instantiates the
registered constructor, and on the colliding `step` key the shared
kwargs value `10min` wins while the `type` key is dropped. -/
theorem create_from_config_spec_witness :
    create_from_config regW none kwW = .ok (regW.default_type, kwW) ∧
    create_from_config regW (some cfgNoType) kwW =
      .error "Unspecified type attribute for timeseries_generator" ∧
    create_from_config regW (some cfgUnknown) kwW =
      .error "Unknown type for timeseries_generator" ∧
    create_from_config regW (some cfgW) kwW =
      .ok ("GordoTimeseriesGenerator", dict_update (dict_pop cfgW "type") kwW) ∧
    dict_update (dict_pop cfgW "type") kwW "step" = some "10min" ∧
    dict_update (dict_pop cfgW "type") kwW "type" = none ∧
    dict_update (dict_pop cfgW "type") kwW "batch_size" = some "128" :=
  ⟨(create_from_config_spec regW cfgW kwW "GordoTimeseriesGenerator"
      "GordoTimeseriesGenerator").1,
   (create_from_config_spec regW cfgNoType kwW "GordoTimeseriesGenerator"
      "GordoTimeseriesGenerator").2.1 rfl,
   (create_from_config_spec regW cfgUnknown kwW "NoSuchGenerator"
      "GordoTimeseriesGenerator").2.2.1 rfl rfl,
   ((create_from_config_spec regW cfgW kwW "GordoTimeseriesGenerator"
      "GordoTimeseriesGenerator").2.2.2 rfl rfl).1,
   ((create_from_config_spec regW cfgW kwW "GordoTimeseriesGenerator"
      "GordoTimeseriesGenerator").2.2.2 rfl rfl).2 "step",
   ((create_from_config_spec regW cfgW kwW "GordoTimeseriesGenerator"
      "GordoTimeseriesGenerator").2.2.2 rfl rfl).2 "type",
   ((create_from_config_spec regW cfgW kwW "GordoTimeseriesGenerator"
      "GordoTimeseriesGenerator").2.2.2 rfl rfl).2 "batch_size"⟩

/-- Claim C10 (confirmed): on every constructed generator (whose
container list is non-empty by construction), a negative index is never
an `IndexError`: the linear scan stops at the very first container
(a negative index is below its cumulative bound `new_i`) and delegates
to that container's generator at the same negative local index. -/
theorem gordo_getitem_negative_index
    (cs : List (TimeseriesGeneratorContainer α))
    (h : cs ≠ []) (n : Int) (hn : n < 0) :
    gordo_getitem cs n = some (0, n) := by
  match cs with
  | c :: rest =>
    rw [gordo_getitem_cons, if_pos (by omega)]

/-- Claim C10 (witness): index -1 on a one-container list is delegated
to container 0 at local index -1 instead of raising `IndexError`. -/
theorem gordo_getitem_negative_index_witness :
    gordo_getitem [(⟨⟨[1,2,3],[1,2,3],1,1,false⟩, ⟨0,20,3⟩, 2⟩ :
      TimeseriesGeneratorContainer Int)] (-1) = some (0, -1) :=
  gordo_getitem_negative_index _ (by simp) (-1) (by decide)

end Gordo
